import Mathlib

/-!
Verification development for the Lumo task/list management backend.

The definitions below are a shallow embedding of the JavaScript source:

* `UserDoc`, `ListDoc`, `TaskDoc` mirror the Mongoose schemas in
  `src/api/models/user.js`, `src/api/models/list.js`, `src/api/models/task.js`.
* The DAO layer (`findById`, `dbRead`, `userCreate`, `listCreate`,
  `taskCreate`, `userUpdate`, `listUpdate`, `taskUpdate`, `listDelete`,
  `taskDelete`, `userDelete`) mirrors `src/api/dao/globalDAO.js` together
  with the entity DAOs.  Note that `GlobalDAO.read`, `update` and `delete`
  in `globalDAO.js` THROW an `Error("Document not found")` when the
  document is missing; this is modelled by `DbErr.docNotFound`, which the
  controllers catch with their generic 500 handler.  `UserDAO.delete`
  overrides `delete` with a cascade and returns `null` instead of throwing.
* The controller functions (`registerUser`, `login`, `updateUserProfile`,
  `deleteUser`, `resetPassword`, `forgotPassword`, `createList`,
  `updateList`, `deleteList`, `getListTasks`, `createTask`, `updateTask`,
  `deleteTask`, `getKanbanTasks`) mirror `listController.js`,
  `userController.js` and the task/user controller variants, including the
  exact response codes and message strings of the source.
* MongoDB documents are keyed by `Nat` ids; JavaScript string ids compare
  equal exactly when the numeric ids are equal, so `toString()` equality
  is modelled by `Nat` equality.  Dates are milliseconds since the epoch
  as `Nat`.  `bcrypt` and `jsonwebtoken` are external libraries; hashing
  is modelled by an injective tagging function.
-/

/-- HTTP response: status code and JSON message. -/
abbrev HResp : Type := Nat × String

/-- Model of the stored User document (schema of src/api/models/user.js). -/
structure UserDoc where
  firstName : String
  lastName : String
  age : Nat
  email : String
  password : String
  resetPasswordToken : Option String := none
  resetPasswordExpires : Option Nat := none
deriving Repr, DecidableEq

/-- Model of the stored List document (schema of src/api/models/list.js). -/
structure ListDoc where
  title : String
  user : Nat
deriving Repr, DecidableEq

/-- Model of the stored Task document (schema of src/api/models/task.js). -/
structure TaskDoc where
  title : String
  description : Option String := none
  status : String := "unassigned"
  dueDate : Option Nat := none
  list : Nat
  user : Nat
deriving Repr, DecidableEq

/-- The MongoDB database: three collections in insertion order, keyed by
ObjectId (modelled as `Nat`), plus the next fresh ObjectId. -/
structure DB where
  users : List (Nat × UserDoc)
  lists : List (Nat × ListDoc)
  tasks : List (Nat × TaskDoc)
  nextId : Nat
deriving Repr, DecidableEq

/-- The empty database. -/
def initDB : DB := { users := [], lists := [], tasks := [], nextId := 0 }

/-- Model of bcrypt.hash (external library): an injective tag producing a
value recognizable by the `startsWith("$2b$")` test of the
findOneAndUpdate hook in user.js. -/
def bcryptHash (plain : String) : String := "$2b$10$" ++ plain

/-- Model of bcrypt.compare (external library). -/
def bcryptCompare (plain hashed : String) : Bool := hashed == bcryptHash plain

/-- JavaScript String.prototype.trimJs (the mongoose `trim: true` setter),
implemented over the character list so that it reduces in the kernel. -/
def String.trimJs (s : String) : String :=
  String.mk
    (((s.data.dropWhile Char.isWhitespace).reverse.dropWhile
        Char.isWhitespace).reverse)

/-- Boolean test that `tag` is an initial segment of the characters. -/
def listTagged : List Char → List Char → Bool
  | [], _ => true
  | _ :: _, [] => false
  | a :: as, b :: bs => a == b && listTagged as bs

/-- JavaScript String.prototype.startsWith. -/
def String.startsWithJs (s tag : String) : Bool := listTagged tag.data s.data

/-- A JavaScript string option is falsy when it is undefined or empty. -/
def strFalsy (o : Option String) : Bool :=
  match o with
  | none => true
  | some s => s == ""

/-- Character class `[^\s@]` of the email regex in user.js. -/
def emailChar (c : Char) : Bool := !c.isWhitespace && !(c == '@')

/-- Model of the email regex `^[^\s@]+@[^\s@]+\.[^\s@]+$` of user.js:
exactly one `@`, no whitespace, nonempty local part, and the domain
contains a dot that is neither its first nor its last character. -/
def emailValid (s : String) : Bool :=
  let lpart := s.data.takeWhile (fun c => !(c == '@'))
  let rest := s.data.dropWhile (fun c => !(c == '@'))
  match rest with
  | '@' :: dpart =>
      !lpart.isEmpty && lpart.all emailChar && dpart.all emailChar &&
        ((dpart.drop 1).dropLast.any (fun c => c == '.'))
  | _ => false

/-- Model of the password regex of user.js: at least 8 characters with a
lowercase letter, an uppercase letter, a digit and a character matched by
`[\W_]` (that is, not a letter and not a digit). -/
def passwordValid (s : String) : Bool :=
  decide (8 ≤ s.data.length) && s.data.any Char.isLower &&
    s.data.any Char.isUpper && s.data.any Char.isDigit &&
    s.data.any (fun c => !(c.isAlpha || c.isDigit))

/-- Validation message of the firstName required rule in user.js. -/
def msgFirstNameReq : String := "Los nombres son requeridos"

/-- Validation message of the lastName required rule in user.js. -/
def msgLastNameReq : String := "Los apellidos son requeridos"

/-- Validation message of the age minimum rule in user.js. -/
def msgAgeMin : String := "El usuario debe tener al menos 13 años"

/-- Default mongoose message for the required age path (no custom message
in user.js). -/
def msgAgeReq : String := "Path `age` is required."

/-- Validation message of the email required rule in user.js. -/
def msgEmailReq : String := "El correo es requerido"

/-- Validation message of the email match rule in user.js. -/
def msgEmailMatch : String := "Inserte un email válido"

/-- Validation message of the password required rule in user.js. -/
def msgPasswordReq : String := "La contraseña es requerida"

/-- Validation message of the password match rule in user.js. -/
def msgPasswordMatch : String :=
  "La contraseña debe tener al menos 8 caracteres, 1 mayúscula, 1 minúscula, 1 número y 1 carácter especial"

/-- Document validation run by mongoose on `save`, in schema path order
(firstName, lastName, age, email, password); required fails for a missing
or empty value, names are trimmed by their setters before validation.
Returns the first error message, as surfaced by the controllers. -/
def userValidate (fn ln : String) (age : Option Nat) (email pw : String) :
    Option String :=
  if fn.trimJs == "" then some msgFirstNameReq
  else if ln.trimJs == "" then some msgLastNameReq
  else
    match age with
    | none => some msgAgeReq
    | some a =>
      if a < 13 then some msgAgeMin
      else if email == "" then some msgEmailReq
      else if !emailValid email then some msgEmailMatch
      else if pw == "" then some msgPasswordReq
      else if !passwordValid pw then some msgPasswordMatch
      else none

/-- Request body for user creation / profile update (fields of the User
schema; absent JSON fields are `none`). -/
structure UserBody where
  firstName : Option String := none
  lastName : Option String := none
  age : Option Nat := none
  email : Option String := none
  password : Option String := none
deriving Repr, DecidableEq

/-- Registration request body: the user fields plus confirmPassword. -/
structure RegisterBody where
  firstName : Option String := none
  lastName : Option String := none
  age : Option Nat := none
  email : Option String := none
  password : Option String := none
  confirmPassword : Option String := none
deriving Repr, DecidableEq

/-- The `{ password, confirmPassword, ...rest }` destructuring of
registerUser: the user document data passed to `UserDAO.create`. -/
def RegisterBody.toUserBody (b : RegisterBody) : UserBody :=
  { firstName := b.firstName, lastName := b.lastName, age := b.age,
    email := b.email, password := b.password }

/-- Errors thrown by the DAO layer, as discriminated by the controllers
(`err.name === "ValidationError"`, `err.code === 11000`, anything else). -/
inductive DbErr where
  | validation (msg : String)
  | duplicateKey
  | docNotFound
deriving Repr, DecidableEq

/-- Model.findById: first document with the given id, or null. -/
def findById (coll : List (Nat × α)) (id : Nat) : Option α :=
  (coll.find? (fun e => e.1 == id)).map (fun e => e.2)

/-- GlobalDAO.read of globalDAO.js: findById, THROWING
`Error("Document not found")` when the document is missing (it does not
return null). -/
def dbRead (coll : List (Nat × α)) (id : Nat) : Except DbErr α :=
  match findById coll id with
  | none => Except.error DbErr.docNotFound
  | some d => Except.ok d

/-- Replace the document stored under an id, keeping collection order. -/
def replaceById (coll : List (Nat × α)) (id : Nat) (d : α) :
    List (Nat × α) :=
  coll.map (fun e => if e.1 == id then (e.1, d) else e)

/-- UserDAO.create (GlobalDAO.create on the User model): validate the
document, then insert; the unique index on email raises a duplicate key
error; the pre-save hook hashes the (modified) password after validation. -/
def userCreate (s : DB) (b : UserBody) : Except DbErr (Nat × UserDoc) × DB :=
  match userValidate (b.firstName.getD ("")) (b.lastName.getD ("")) b.age
      (b.email.getD ("")) (b.password.getD ("")) with
  | some m => (Except.error (DbErr.validation m), s)
  | none =>
    let doc : UserDoc :=
      { firstName := (b.firstName.getD ("")).trimJs,
        lastName := (b.lastName.getD ("")).trimJs,
        age := b.age.getD 0,
        email := b.email.getD (""),
        password := bcryptHash (b.password.getD ("")) }
    if s.users.any (fun e => e.2.email == doc.email) then
      (Except.error DbErr.duplicateKey, s)
    else
      (Except.ok (s.nextId, doc),
        { s with users := s.users ++ [(s.nextId, doc)],
                 nextId := s.nextId + 1 })

/-- Title validation of the List schema (required, trim, maxlength 30). -/
def listValidate (title : Option String) : Option String :=
  if (title.getD ("")).trimJs == "" then some ("A title is required")
  else if 30 < (title.getD ("")).trimJs.length then
    some ("The title cannot have more than 30 characters")
  else none

/-- ListDAO.create: validate, then insert; the unique compound index on
(title, user) declared in list.js raises a duplicate key error. -/
def listCreate (s : DB) (title : Option String) (uid : Nat) :
    Except DbErr (Nat × ListDoc) × DB :=
  match listValidate title with
  | some m => (Except.error (DbErr.validation m), s)
  | none =>
    let doc : ListDoc := { title := (title.getD ("")).trimJs, user := uid }
    if s.lists.any (fun e => e.2.title == doc.title && e.2.user == doc.user) then
      (Except.error DbErr.duplicateKey, s)
    else
      (Except.ok (s.nextId, doc),
        { s with lists := s.lists ++ [(s.nextId, doc)],
                 nextId := s.nextId + 1 })

/-- Status enum of the Task schema. -/
def statusEnum : List String := ["ongoing", "unassigned", "done"]

/-- Default mongoose message for an invalid enum value on the status path. -/
def msgStatusEnum (st : String) : String :=
  "`" ++ st ++ "` is not a valid enum value for path `status`."

/-- Task request body (fields a client may send; `list` and `user` are
set separately by the controllers). -/
structure TaskBody where
  title : Option String := none
  description : Option String := none
  status : Option String := none
  dueDate : Option Nat := none
deriving Repr, DecidableEq

/-- Document validation of the Task schema on save, in path order. -/
def taskValidate (b : TaskBody) : Option String :=
  if (b.title.getD ("")).trimJs == "" then some ("El titulo es requerido")
  else if 30 < (b.title.getD ("")).trimJs.length then
    some ("El título no puede tener más de 30 caracteres")
  else if 200 < (b.description.getD ("")).trimJs.length then
    some ("La descripción no puede tener más de 200 caracteres")
  else
    match b.status with
    | none => none
    | some st => if statusEnum.contains st then none else some (msgStatusEnum st)

/-- TaskDAO.create: validate, apply the status default, insert. -/
def taskCreate (s : DB) (b : TaskBody) (lid uid : Nat) :
    Except DbErr (Nat × TaskDoc) × DB :=
  match taskValidate b with
  | some m => (Except.error (DbErr.validation m), s)
  | none =>
    let doc : TaskDoc :=
      { title := (b.title.getD ("")).trimJs,
        description := b.description.map String.trimJs,
        status := b.status.getD ("unassigned"),
        dueDate := b.dueDate,
        list := lid, user := uid }
    (Except.ok (s.nextId, doc),
      { s with tasks := s.tasks ++ [(s.nextId, doc)],
               nextId := s.nextId + 1 })

/-- Update validation for the Task schema: runValidators checks only the
paths present in the update. -/
def taskUpdateValidate (b : TaskBody) : Option String :=
  match b.title with
  | some t =>
    if t.trimJs == "" then some ("El titulo es requerido")
    else if 30 < t.trimJs.length then
      some ("El título no puede tener más de 30 caracteres")
    else
      if 200 < ((b.description.getD ("")).trimJs.length) then
        some ("La descripción no puede tener más de 200 caracteres")
      else
        match b.status with
        | none => none
        | some st =>
          if statusEnum.contains st then none else some (msgStatusEnum st)
  | none =>
    if 200 < ((b.description.getD ("")).trimJs.length) then
      some ("La descripción no puede tener más de 200 caracteres")
    else
      match b.status with
      | none => none
      | some st =>
        if statusEnum.contains st then none else some (msgStatusEnum st)

/-- Apply the `$set` of a task update: only the allowed fields present in
the body change; `list` and `user` are never touched. -/
def applyTaskUpdates (t : TaskDoc) (b : TaskBody) : TaskDoc :=
  { title := (b.title.map String.trimJs).getD t.title,
    description := (b.description.map (fun d => some d.trimJs)).getD t.description,
    status := b.status.getD t.status,
    dueDate := (b.dueDate.map (fun d => some d)).getD t.dueDate,
    list := t.list, user := t.user }

/-- GlobalDAO.update on the Task model: findByIdAndUpdate with
runValidators; throws `Error("Document not found")` when missing. -/
def taskUpdate (s : DB) (tid : Nat) (b : TaskBody) :
    Except DbErr TaskDoc × DB :=
  match findById s.tasks tid with
  | none => (Except.error DbErr.docNotFound, s)
  | some t =>
    match taskUpdateValidate b with
    | some m => (Except.error (DbErr.validation m), s)
    | none =>
      let t2 := applyTaskUpdates t b
      (Except.ok t2, { s with tasks := replaceById s.tasks tid t2 })

/-- GlobalDAO.update on the List model: the updateList controller always
passes `{ title: req.body.title }`; an undefined title is stripped by
mongoose (no-op update).  The unique (title, user) index fires when
another list of the same owner already has the new title. -/
def listUpdate (s : DB) (lid : Nat) (newTitle : Option String) :
    Except DbErr ListDoc × DB :=
  match findById s.lists lid with
  | none => (Except.error DbErr.docNotFound, s)
  | some l =>
    match newTitle with
    | none => (Except.ok l, s)
    | some t =>
      if t.trimJs == "" then
        (Except.error (DbErr.validation ("A title is required")), s)
      else if 30 < t.trimJs.length then
        (Except.error (DbErr.validation
          ("The title cannot have more than 30 characters")), s)
      else if s.lists.any
          (fun e => !(e.1 == lid) && e.2.title == t.trimJs && e.2.user == l.user) then
        (Except.error DbErr.duplicateKey, s)
      else
        let l2 : ListDoc := { l with title := t.trimJs }
        (Except.ok l2, { s with lists := replaceById s.lists lid l2 })

/-- Update validation for the User schema: runValidators checks only the
paths present in the update, with the same per-field rules (and first
error messages) as registration. -/
def userUpdateValidate (b : UserBody) : Option String :=
  match b.firstName with
  | some fn =>
    if fn.trimJs == "" then some msgFirstNameReq else userUpdateValidateLN b
  | none => userUpdateValidateLN b
where
  userUpdateValidateLN (b : UserBody) : Option String :=
    match b.lastName with
    | some ln =>
      if ln.trimJs == "" then some msgLastNameReq else userUpdateValidateAge b
    | none => userUpdateValidateAge b
  userUpdateValidateAge (b : UserBody) : Option String :=
    match b.age with
    | some a => if a < 13 then some msgAgeMin else userUpdateValidateEmail b
    | none => userUpdateValidateEmail b
  userUpdateValidateEmail (b : UserBody) : Option String :=
    match b.email with
    | some em =>
      if em == "" then some msgEmailReq
      else if !emailValid em then some msgEmailMatch
      else userUpdateValidatePw b
    | none => userUpdateValidatePw b
  userUpdateValidatePw (b : UserBody) : Option String :=
    match b.password with
    | some pw =>
      if pw == "" then some msgPasswordReq
      else if !passwordValid pw then some msgPasswordMatch
      else none
    | none => none

/-- Apply the `$set` of a user profile update (names trimmed by their
setters; the password is written as sent, see the hook below). -/
def applyUserUpdates (u : UserDoc) (b : UserBody) : UserDoc :=
  { firstName := (b.firstName.map String.trimJs).getD u.firstName,
    lastName := (b.lastName.map String.trimJs).getD u.lastName,
    age := b.age.getD u.age,
    email := b.email.getD u.email,
    password := b.password.getD u.password,
    resetPasswordToken := u.resetPasswordToken,
    resetPasswordExpires := u.resetPasswordExpires }

/-- GlobalDAO.update on the User model: findByIdAndUpdate with
runValidators, the unique email index, and the post-findOneAndUpdate hook
of user.js which re-hashes a password that does not start with `$2b$`
(the final persisted password of an update that set a plaintext password
is therefore its hash). -/
def userUpdate (s : DB) (uid : Nat) (b : UserBody) :
    Except DbErr UserDoc × DB :=
  match findById s.users uid with
  | none => (Except.error DbErr.docNotFound, s)
  | some u =>
    match userUpdateValidate b with
    | some m => (Except.error (DbErr.validation m), s)
    | none =>
      if b.email.isSome &&
          s.users.any (fun e => !(e.1 == uid) && e.2.email == b.email.getD ("")) then
        (Except.error DbErr.duplicateKey, s)
      else
        let u2 := applyUserUpdates u b
        let u3 :=
          if b.password.isSome && !((b.password.getD ("")).startsWithJs ("$2b$"))
          then { u2 with password := bcryptHash u2.password }
          else u2
        (Except.ok u3, { s with users := replaceById s.users uid u3 })

/-- GlobalDAO.delete on the List model: findByIdAndDelete, throwing when
the document is missing.  Tasks of the list are NOT touched. -/
def listDelete (s : DB) (lid : Nat) : Except DbErr ListDoc × DB :=
  match findById s.lists lid with
  | none => (Except.error DbErr.docNotFound, s)
  | some l =>
    (Except.ok l, { s with lists := s.lists.filter (fun e => !(e.1 == lid)) })

/-- GlobalDAO.delete on the Task model. -/
def taskDelete (s : DB) (tid : Nat) : Except DbErr TaskDoc × DB :=
  match findById s.tasks tid with
  | none => (Except.error DbErr.docNotFound, s)
  | some t =>
    (Except.ok t, { s with tasks := s.tasks.filter (fun e => !(e.1 == tid)) })

/-- UserDAO.delete of userDAO.js (overrides GlobalDAO.delete): deleteMany
lists of the user, deleteMany tasks of the user, then findByIdAndDelete
the user, returning the deleted document or null (no throw). -/
def userDelete (s : DB) (uid : Nat) : Option UserDoc × DB :=
  let s1 := { s with lists := s.lists.filter (fun e => !(e.2.user == uid)) }
  let s2 := { s1 with tasks := s1.tasks.filter (fun e => !(e.2.user == uid)) }
  match findById s2.users uid with
  | none => (none, s2)
  | some u =>
    (some u, { s2 with users := s2.users.filter (fun e => !(e.1 == uid)) })

/-- Generic 500 response of every controller catch block. -/
def internalErr : HResp := (500, "Internal server error, try again later")

/-- UserController.registerUser (part of the user controller): the
password/confirm prechecks, then a mongoose transaction whose session is
NEVER attached to either insert — `this.dao.create({ ...rest, password })`
is called without the session and `GlobalDAO.create(data)` ignores the
`{ session }` argument given to `ListDAO.create` — so both writes commit
independently and `withTransaction` can roll back neither.  The
`listInsertFault` flag injects a failure between the two inserts (the
failure simulation of the specification); the catch block then answers
500 while the user insert stays committed. -/
def registerUser (s : DB) (b : RegisterBody) (listInsertFault : Bool) :
    HResp × DB :=
  if strFalsy b.password || strFalsy b.confirmPassword then
    ((400, "Todos los campos son obligatorios"), s)
  else if !(b.password == b.confirmPassword) then
    ((400, "Las contraseñas no coinciden"), s)
  else
    match userCreate s b.toUserBody with
    | (Except.error (DbErr.validation m), s1) => ((400, m), s1)
    | (Except.error DbErr.duplicateKey, s1) => ((409, "Email ya registrado"), s1)
    | (Except.error _, s1) => (internalErr, s1)
    | (Except.ok (uid, _), s1) =>
      if listInsertFault then (internalErr, s1)
      else
        match listCreate s1 (some ("Tasks")) uid with
        | (Except.error (DbErr.validation m), s2) => ((400, m), s2)
        | (Except.error DbErr.duplicateKey, s2) =>
            ((409, "Email ya registrado"), s2)
        | (Except.error _, s2) => (internalErr, s2)
        | (Except.ok _, s2) => ((201, "Registro exitoso"), s2)

/-- UserController.login of userController.js: findByEmail, bcrypt
compare, then a signed 1-hour token carrying `{ id, email }` (modelled as
the payload itself).  Both failure branches answer 401 with the literal
message of the source. -/
def login (s : DB) (email pw : String) : Except HResp (Nat × String) :=
  if email == "" || pw == "" then
    Except.error (400, "Email and password are required")
  else
    match s.users.find? (fun e => e.2.email == email) with
    | none => Except.error (401, "Email or password are incorrect")
    | some (uid, u) =>
      if bcryptCompare pw u.password then Except.ok (uid, u.email)
      else Except.error (401, "Email or password are incorrect")

/-- UserController.updateUserProfile: confirmPassword is required on
EVERY update; `password !== confirmPassword` is the JavaScript strict
comparison (undefined differs from any string); then the user is read
(GlobalDAO.read throws when missing, caught as 500) and the whole body is
passed to `this.dao.update`. -/
def updateUserProfile (s : DB) (uid : Nat) (b : UserBody)
    (confirmPassword : Option String) : HResp × DB :=
  if strFalsy confirmPassword then
    ((400, "Todos los campos son requeridos"), s)
  else if !(b.password == confirmPassword) then
    ((400, "Las contraseñas no coinciden"), s)
  else
    match dbRead s.users uid with
    | Except.error _ => (internalErr, s)
    | Except.ok _ =>
      match userUpdate s uid b with
      | (Except.error (DbErr.validation m), s2) => ((400, m), s2)
      | (Except.error DbErr.duplicateKey, s2) =>
          ((409, "Email ya registrado"), s2)
      | (Except.error _, s2) => (internalErr, s2)
      | (Except.ok _, s2) => ((200, "Perfil exitosamente actualizado"), s2)

/-- UserController.deleteUser: read the actor (throwing read, see
`dbRead`), then the cascading UserDAO.delete. -/
def deleteUser (s : DB) (uid : Nat) : HResp × DB :=
  match dbRead s.users uid with
  | Except.error _ => (internalErr, s)
  | Except.ok _ =>
    ((200, "Perfil exitosamente borrado"), (userDelete s uid).2)

/-- Request body of resetPassword. -/
structure ResetBody where
  password : Option String := none
  confirmPassword : Option String := none
deriving Repr, DecidableEq

/-- Log lines emitted by a controller (console.log receives the value). -/
inductive LogItem where
  | resetBody (b : ResetBody) : LogItem
  | resetToken (t : String) : LogItem
deriving Repr, DecidableEq

/-- Result of resetPassword: response, database, emitted log. -/
structure RPOut where
  resp : HResp
  db : DB
  log : List LogItem
deriving Repr, DecidableEq

/-- Predicate of the `resetPasswordExpires: { $gt: Date.now() }` query
condition: a missing expiry never matches. -/
def expiresOk (now : Nat) (e : Option Nat) : Bool :=
  match e with
  | some exp => decide (now < exp)
  | none => false

/-- UserController.resetPassword: logs the raw request body and the token
first, validates presence and confirmation match BEFORE any lookup, then
findOne on (resetPasswordToken, unexpired); a miss answers the generic
invalid-or-expired message.  On a hit the password is replaced and both
token fields cleared in one save (full document validation, then the
pre-save hook hashes the modified password). -/
def resetPassword (s : DB) (now : Nat) (token : String) (b : ResetBody) :
    RPOut :=
  let logs : List LogItem := [LogItem.resetBody b, LogItem.resetToken token]
  if strFalsy b.password || strFalsy b.confirmPassword then
    { resp := (400, "Todos los campos son necesarios"), db := s, log := logs }
  else if !(b.password == b.confirmPassword) then
    { resp := (400, "Las contraseñas no coinciden"), db := s, log := logs }
  else
    match s.users.find? (fun e =>
        e.2.resetPasswordToken == some token &&
        expiresOk now e.2.resetPasswordExpires) with
    | none =>
      { resp := (400, "Token no válida o expirada"), db := s, log := logs }
    | some (uid, u) =>
      let pw := b.password.getD ("")
      match userValidate u.firstName u.lastName (some u.age) u.email pw with
      | some m => { resp := (400, m), db := s, log := logs }
      | none =>
        let u2 : UserDoc :=
          { u with password := bcryptHash pw,
                   resetPasswordToken := none, resetPasswordExpires := none }
        { resp := (200, "Password has been reset successfully"),
          db := { s with users := replaceById s.users uid u2 }, log := logs }

/-- UserController.forgotPassword: findByEmail, then store a signed token
(external jwt, passed as a parameter) with a one-hour expiry and send the
reset mail. -/
def forgotPassword (s : DB) (now : Nat) (email : String) (token : String) :
    HResp × DB :=
  if email == "" then ((400, "Email es requerido"), s)
  else
    match s.users.find? (fun e => e.2.email == email) with
    | none => ((404, "Usuario no encontrado"), s)
    | some (uid, u) =>
      let u2 : UserDoc :=
        { u with resetPasswordToken := some token,
                 resetPasswordExpires := some (now + 3600000) }
      ((200, "Email de recuperar contraseña enviado"),
        { s with users := replaceById s.users uid u2 })

/-- ListController.createList of listController.js: read the actor
(throwing read), then `this.dao.create({ ...req.body, user: userId })`;
a duplicate (title, user) pair answers 409. -/
def createList (s : DB) (actorId : Nat) (title : Option String) :
    HResp × DB :=
  match dbRead s.users actorId with
  | Except.error _ => (internalErr, s)
  | Except.ok _ =>
    match listCreate s title actorId with
    | (Except.error (DbErr.validation m), s2) => ((400, m), s2)
    | (Except.error DbErr.duplicateKey, s2) =>
        ((409, "Ya existe una lista con ese título"), s2)
    | (Except.error _, s2) => (internalErr, s2)
    | (Except.ok _, s2) => ((200, "Lista creada exitosamente"), s2)

/-- ListController.updateList of listController.js: read the actor, read
the list (both reads throw on a miss, caught as 500; the subsequent null
checks of the source are unreachable), compare `list.user.toString()`
with the actor id, then update the title only. -/
def updateList (s : DB) (actorId lid : Nat) (newTitle : Option String) :
    HResp × DB :=
  match dbRead s.users actorId with
  | Except.error _ => (internalErr, s)
  | Except.ok _ =>
    match dbRead s.lists lid with
    | Except.error _ => (internalErr, s)
    | Except.ok l =>
      if !(l.user == actorId) then ((403, "Acción prohibida"), s)
      else
        match listUpdate s lid newTitle with
        | (Except.error (DbErr.validation m), s2) => ((400, m), s2)
        | (Except.error DbErr.duplicateKey, s2) =>
            ((409, "Ya existe una lista con ese título"), s2)
        | (Except.error _, s2) => (internalErr, s2)
        | (Except.ok _, s2) => ((200, "Lista actualizada exitosamente"), s2)

/-- ListController.deleteList of listController.js: same existence and
ownership sequence, then `this.dao.delete(listId)` — the plain
GlobalDAO.delete, which removes ONLY the list document. -/
def deleteList (s : DB) (actorId lid : Nat) : HResp × DB :=
  match dbRead s.users actorId with
  | Except.error _ => (internalErr, s)
  | Except.ok _ =>
    match dbRead s.lists lid with
    | Except.error _ => (internalErr, s)
    | Except.ok l =>
      if !(l.user == actorId) then ((403, "Acción prohibida"), s)
      else
        match listDelete s lid with
        | (Except.error _, s2) => (internalErr, s2)
        | (Except.ok _, s2) => ((200, "Lista eliminada exitosamente"), s2)

/-- Status bucket of the `$switch` stage of TaskDAO.getTasksByListOrdered:
ongoing 0, unassigned 1, done 2, anything else 3. -/
def statusOrder (st : String) : Nat :=
  if st == "ongoing" then 0
  else if st == "unassigned" then 1
  else if st == "done" then 2
  else 3

/-- Milliseconds since the epoch of `new Date("9999-12-31")`, the
`$ifNull` sentinel of the pipeline. -/
def sentinelDate : Nat := 253402214400000

/-- The `_dueForSort` field: the due date, or the sentinel when absent. -/
def dueForSort (d : Option Nat) : Nat := d.getD sentinelDate

/-- Sort key of the pipeline: `{ statusOrder: 1, _dueForSort: 1 }`. -/
def taskKey (t : TaskDoc) : Nat × Nat :=
  (statusOrder t.status, dueForSort t.dueDate)

/-- Comparison realised by the `$sort` stage: ascending status bucket,
ties broken by ascending `_dueForSort` (lexicographic on `taskKey`). -/
def taskSortLe (a b : TaskDoc) : Prop :=
  (taskKey a).1 < (taskKey b).1 ∨
    ((taskKey a).1 = (taskKey b).1 ∧ (taskKey a).2 ≤ (taskKey b).2)

instance : DecidableRel taskSortLe := fun a b => by
  unfold taskSortLe
  exact inferInstance

instance : IsTotal TaskDoc taskSortLe := by
  constructor
  intro a b
  unfold taskSortLe
  omega

instance : IsTrans TaskDoc taskSortLe := by
  constructor
  intro a b c hab hbc
  unfold taskSortLe at *
  omega

/-- TaskDAO.getTasksByListOrdered of taskDAO.js, as the contract of its
aggregation pipeline: `$match` selects the documents whose list field
equals the id, `$addFields` computes statusOrder (`$switch`) and
`_dueForSort` (`$ifNull` sentinel), and `$sort` orders by
(statusOrder, `_dueForSort`) ascending.  MongoDB guarantees neither the
relative order of documents that compare equal on the sort keys nor a
base scan order, so the pipeline may return ANY permutation of the
matched documents that is ordered by the two keys; the predicate holds
of exactly these admissible returns. -/
def getTasksByListOrdered (tasks : List (Nat × TaskDoc)) (lid : Nat)
    (out : List TaskDoc) : Prop :=
  out.Perm ((tasks.map (fun e => e.2)).filter (fun t => t.list == lid)) ∧
    List.Sorted taskSortLe out

instance (tasks : List (Nat × TaskDoc)) (lid : Nat) (out : List TaskDoc) :
    Decidable (getTasksByListOrdered tasks lid out) := by
  unfold getTasksByListOrdered
  exact inferInstance

/-- ListController.getListTasks of listController.js, as a relation
between the request and an admissible response: read the actor and the
list (throwing reads, 500 on a miss), check ownership, then return the
ordered tasks of the list (any return admissible for the pipeline). -/
def getListTasks (s : DB) (actorId lid : Nat)
    (res : Except HResp (List TaskDoc)) : Prop :=
  match dbRead s.users actorId with
  | Except.error _ => res = Except.error internalErr
  | Except.ok _ =>
    match dbRead s.lists lid with
    | Except.error _ => res = Except.error internalErr
    | Except.ok l =>
      if !(l.user == actorId) then res = Except.error (403, "Acción prohibida")
      else ∃ out, getTasksByListOrdered s.tasks lid out ∧ res = Except.ok out

/-- TaskController.createTask: read the actor and the parent list
(throwing reads, 500 on a miss; the null checks of the source are
unreachable), compare the list owner with the actor, then
`this.dao.create({ ...req.body, list: listId, user: userId })`. -/
def createTask (s : DB) (actorId : Nat) (b : TaskBody) (listId : Nat) :
    HResp × DB :=
  match dbRead s.users actorId with
  | Except.error _ => (internalErr, s)
  | Except.ok _ =>
    match dbRead s.lists listId with
    | Except.error _ => (internalErr, s)
    | Except.ok l =>
      if !(l.user == actorId) then ((403, "Forbidden action"), s)
      else
        match taskCreate s b listId actorId with
        | (Except.error (DbErr.validation m), s2) => ((400, m), s2)
        | (Except.error _, s2) => (internalErr, s2)
        | (Except.ok _, s2) => ((200, "Task successfully created"), s2)

/-- TaskController.updateTask: read the actor and the task, compare
`task.user.toString()` with the actor id, then update only the allowed
fields present in the body (title, description, status, dueDate). -/
def updateTask (s : DB) (actorId tid : Nat) (b : TaskBody) : HResp × DB :=
  match dbRead s.users actorId with
  | Except.error _ => (internalErr, s)
  | Except.ok _ =>
    match dbRead s.tasks tid with
    | Except.error _ => (internalErr, s)
    | Except.ok t =>
      if !(t.user == actorId) then ((403, "Forbidden action"), s)
      else
        match taskUpdate s tid b with
        | (Except.error (DbErr.validation m), s2) => ((400, m), s2)
        | (Except.error _, s2) => (internalErr, s2)
        | (Except.ok _, s2) => ((200, "Task successfully updated"), s2)

/-- TaskController.deleteTask: same sequence, then GlobalDAO.delete. -/
def deleteTask (s : DB) (actorId tid : Nat) : HResp × DB :=
  match dbRead s.users actorId with
  | Except.error _ => (internalErr, s)
  | Except.ok _ =>
    match dbRead s.tasks tid with
    | Except.error _ => (internalErr, s)
    | Except.ok t =>
      if !(t.user == actorId) then ((403, "Forbidden action"), s)
      else
        match taskDelete s tid with
        | (Except.error _, s2) => (internalErr, s2)
        | (Except.ok _, s2) => ((200, "Task successfully deleted"), s2)

/-- The tasks of a user, in collection order (the
`this.dao.getAll({ user: userId })` of getKanbanTasks). -/
def userTasks (s : DB) (uid : Nat) : List TaskDoc :=
  (s.tasks.map (fun e => e.2)).filter (fun t => t.user == uid)

/-- TaskController.getKanbanTasks: read the actor, fetch the tasks of the
user, and split them by the three filters of the source into
(ongoingTasks, unassignedTasks, doneTasks). -/
def getKanbanTasks (s : DB) (uid : Nat) :
    Except HResp (List TaskDoc × List TaskDoc × List TaskDoc) :=
  match dbRead s.users uid with
  | Except.error _ => Except.error internalErr
  | Except.ok _ =>
    let tasks := userTasks s uid
    Except.ok (tasks.filter (fun t => t.status == "ongoing"),
      tasks.filter (fun t => t.status == "unassigned"),
      tasks.filter (fun t => t.status == "done"))

/-- One mutating API request, as exposed by the routers (each constructor
wraps the post-state of the corresponding controller). -/
inductive Step : DB → DB → Prop where
  | register (s : DB) (b : RegisterBody) (f : Bool) :
      Step s (registerUser s b f).2
  | profileUpdate (s : DB) (uid : Nat) (b : UserBody) (c : Option String) :
      Step s (updateUserProfile s uid b c).2
  | accountDelete (s : DB) (uid : Nat) : Step s (deleteUser s uid).2
  | pwReset (s : DB) (now : Nat) (token : String) (b : ResetBody) :
      Step s (resetPassword s now token b).db
  | pwForgot (s : DB) (now : Nat) (email token : String) :
      Step s (forgotPassword s now email token).2
  | listCreateStep (s : DB) (uid : Nat) (title : Option String) :
      Step s (createList s uid title).2
  | listUpdateStep (s : DB) (uid lid : Nat) (t : Option String) :
      Step s (updateList s uid lid t).2
  | listDeleteStep (s : DB) (uid lid : Nat) : Step s (deleteList s uid lid).2
  | taskCreateStep (s : DB) (uid : Nat) (b : TaskBody) (lid : Nat) :
      Step s (createTask s uid b lid).2
  | taskUpdateStep (s : DB) (uid tid : Nat) (b : TaskBody) :
      Step s (updateTask s uid tid b).2
  | taskDeleteStep (s : DB) (uid tid : Nat) : Step s (deleteTask s uid tid).2

/-- States reachable from the empty database through API requests. -/
inductive Reachable : DB → Prop where
  | init : Reachable initDB
  | step {s s2 : DB} : Reachable s → Step s s2 → Reachable s2

/-- Every id of a collection is below the fresh-id counter. -/
def keyBound (n : Nat) (coll : List (Nat × α)) : Prop :=
  ∀ e ∈ coll, e.1 < n

/-- The ownership part of the data-model invariant: a task that still has
its parent list carries the same owner as that list. -/
def OwnInv (s : DB) : Prop :=
  ∀ le ∈ s.lists, ∀ te ∈ s.tasks, te.2.list = le.1 → te.2.user = le.2.user

/-- Data-model invariant maintained by every request: fresh ids bound the
stored ids and the list references of tasks, ids are unique per
collection, and ownership agrees along the task-to-list reference. -/
def DbInv (s : DB) : Prop :=
  keyBound s.nextId s.users ∧ keyBound s.nextId s.lists ∧
    keyBound s.nextId s.tasks ∧ (∀ e ∈ s.tasks, e.2.list < s.nextId) ∧
    (s.users.map Prod.fst).Nodup ∧ (s.lists.map Prod.fst).Nodup ∧
    (s.tasks.map Prod.fst).Nodup ∧ OwnInv s

instance (s : DB) : Decidable (OwnInv s) := by
  unfold OwnInv
  exact inferInstance

instance (n : Nat) (coll : List (Nat × α)) : Decidable (keyBound n coll) :=
  List.decidableBAll (fun (e : Nat × α) => e.1 < n) coll

instance (s : DB) : Decidable (DbInv s) := by
  unfold DbInv
  exact inferInstance

theorem findById_mem {c : List (Nat × α)} {k : Nat} {v : α}
    (h : findById c k = some v) : (k, v) ∈ c := by
  unfold findById at h
  cases hf : c.find? (fun e => e.1 == k) with
  | none => simp [hf] at h
  | some e =>
    simp [hf] at h
    have hm := List.mem_of_find?_eq_some hf
    have hp := List.find?_some hf
    simp at hp
    have : e = (k, v) := by
      cases e
      simp_all
    rw [this] at hm
    exact hm

theorem findById_eq_of_mem_nodup {c : List (Nat × α)} {k : Nat} {v : α}
    (hnd : (c.map Prod.fst).Nodup) (h : findById c k = some v) :
    ∀ e ∈ c, e.1 = k → e.2 = v := by
  intro e he hek
  have hkv := findById_mem h
  have hinj := List.inj_on_of_nodup_map hnd
  have : e = (k, v) := hinj he hkv (by simpa using hek)
  rw [this]

theorem map_fst_replaceById (c : List (Nat × α)) (k : Nat) (d : α) :
    (replaceById c k d).map Prod.fst = c.map Prod.fst := by
  unfold replaceById
  rw [List.map_map]
  apply List.map_congr_left
  intro e _
  by_cases hk : e.1 == k
  · simp [Function.comp, hk]
  · simp [Function.comp, hk]

theorem mem_replaceById {c : List (Nat × α)} {k : Nat} {d : α} {e : Nat × α}
    (h : e ∈ replaceById c k d) :
    e ∈ c ∨ (e.1 = k ∧ e.2 = d ∧ ∃ v, (k, v) ∈ c) := by
  unfold replaceById at h
  rcases List.mem_map.mp h with ⟨x, hx, hfx⟩
  by_cases hk : x.1 == k
  · have hxk : x.1 = k := by simpa using hk
    simp [hk] at hfx
    right
    refine ⟨?_, ?_, x.2, ?_⟩
    · rw [← hfx]
      exact hxk
    · rw [← hfx]
    · rw [← hxk]
      exact hx
  · simp [hk] at hfx
    left
    rw [← hfx]
    exact hx

theorem keyBound_append {n : Nat} {c : List (Nat × α)} {d : α}
    (h : keyBound n c) : keyBound (n + 1) (c ++ [(n, d)]) := by
  intro e he
  rcases List.mem_append.mp he with h1 | h2
  · exact Nat.lt_succ_of_lt (h e h1)
  · simp at h2
    subst h2
    simp

theorem keyBound_mono {n m : Nat} {c : List (Nat × α)} (h : keyBound n c)
    (hnm : n ≤ m) : keyBound m c :=
  fun e he => Nat.lt_of_lt_of_le (h e he) hnm

theorem keyBound_filter {n : Nat} {c : List (Nat × α)} {p : Nat × α → Bool}
    (h : keyBound n c) : keyBound n (c.filter p) :=
  fun e he => h e (List.mem_of_mem_filter he)

theorem keyBound_replaceById {n : Nat} {c : List (Nat × α)} {k : Nat} {d : α}
    (h : keyBound n c) : keyBound n (replaceById c k d) := by
  intro e he
  rcases mem_replaceById he with h1 | ⟨hk, _, v, hv⟩
  · exact h e h1
  · rw [hk]
    exact h (k, v) hv

theorem nodup_fst_append {n : Nat} {c : List (Nat × α)} {d : α}
    (hb : keyBound n c) (hnd : (c.map Prod.fst).Nodup) :
    ((c ++ [(n, d)]).map Prod.fst).Nodup := by
  rw [List.map_append]
  rw [List.nodup_append]
  refine ⟨hnd, List.nodup_singleton n, ?_⟩
  intro a ha hb2
  simp at hb2
  have hlt : a < n := by
    rcases List.mem_map.mp ha with ⟨e, he, hfe⟩
    rw [← hfe]
    exact hb e he
  omega

theorem nodup_fst_filter {c : List (Nat × α)} {p : Nat × α → Bool}
    (hnd : (c.map Prod.fst).Nodup) : ((c.filter p).map Prod.fst).Nodup :=
  List.Sublist.nodup ((List.filter_sublist c).map Prod.fst) hnd

theorem dbinv_userCreate (s : DB) (b : UserBody) (h : DbInv s) :
    DbInv (userCreate s b).2 := by
  obtain ⟨kbU, kbL, kbT, refT, ndU, ndL, ndT, own⟩ := h
  unfold userCreate
  split
  · exact ⟨kbU, kbL, kbT, refT, ndU, ndL, ndT, own⟩
  · dsimp only
    split
    · exact ⟨kbU, kbL, kbT, refT, ndU, ndL, ndT, own⟩
    · refine ⟨keyBound_append kbU, keyBound_mono kbL (Nat.le_succ _),
        keyBound_mono kbT (Nat.le_succ _), ?_,
        nodup_fst_append kbU ndU, ndL, ndT, own⟩
      intro e he
      exact Nat.lt_succ_of_lt (refT e he)

theorem dbinv_listCreate (s : DB) (title : Option String) (uid : Nat)
    (h : DbInv s) : DbInv (listCreate s title uid).2 := by
  obtain ⟨kbU, kbL, kbT, refT, ndU, ndL, ndT, own⟩ := h
  unfold listCreate
  split
  · exact ⟨kbU, kbL, kbT, refT, ndU, ndL, ndT, own⟩
  · dsimp only
    split
    · exact ⟨kbU, kbL, kbT, refT, ndU, ndL, ndT, own⟩
    · refine ⟨keyBound_mono kbU (Nat.le_succ _), keyBound_append kbL,
        keyBound_mono kbT (Nat.le_succ _), ?_, ndU,
        nodup_fst_append kbL ndL, ndT, ?_⟩
      · intro e he
        exact Nat.lt_succ_of_lt (refT e he)
      · intro le hle te hte heq
        rcases List.mem_append.mp hle with h1 | h2
        · exact own le h1 te hte heq
        · simp at h2
          subst h2
          have := refT te hte
          simp at heq
          omega

theorem dbinv_taskCreate (s : DB) (b : TaskBody) (lid uid : Nat)
    {l : ListDoc} (hl : findById s.lists lid = some l) (hu : l.user = uid)
    (h : DbInv s) : DbInv (taskCreate s b lid uid).2 := by
  obtain ⟨kbU, kbL, kbT, refT, ndU, ndL, ndT, own⟩ := h
  have hlid : lid < s.nextId := kbL (lid, l) (findById_mem hl)
  unfold taskCreate
  split
  · exact ⟨kbU, kbL, kbT, refT, ndU, ndL, ndT, own⟩
  · refine ⟨keyBound_mono kbU (Nat.le_succ _), keyBound_mono kbL (Nat.le_succ _),
      keyBound_append kbT, ?_, ndU, ndL, nodup_fst_append kbT ndT, ?_⟩
    · intro e he
      rcases List.mem_append.mp he with h1 | h2
      · exact Nat.lt_succ_of_lt (refT e h1)
      · simp at h2
        subst h2
        simpa using Nat.lt_succ_of_lt hlid
    · intro le hle te hte heq
      rcases List.mem_append.mp hte with h1 | h2
      · exact own le hle te h1 heq
      · simp at h2
        subst h2
        simp at heq
        have hle2 := findById_eq_of_mem_nodup ndL hl le hle heq.symm
        simp [hle2, hu]

theorem dbinv_taskUpdate (s : DB) (tid : Nat) (b : TaskBody) (h : DbInv s) :
    DbInv (taskUpdate s tid b).2 := by
  obtain ⟨kbU, kbL, kbT, refT, ndU, ndL, ndT, own⟩ := h
  unfold taskUpdate
  split
  · exact ⟨kbU, kbL, kbT, refT, ndU, ndL, ndT, own⟩
  case _ t ht =>
  split
  · exact ⟨kbU, kbL, kbT, refT, ndU, ndL, ndT, own⟩
  · have htm : (tid, t) ∈ s.tasks := findById_mem ht
    refine ⟨kbU, kbL, keyBound_replaceById kbT, ?_, ndU, ndL, ?_, ?_⟩
    · intro e he
      rcases mem_replaceById he with h1 | ⟨hk, hd, v, hv⟩
      · exact refT e h1
      · rw [hd]
        have : (applyTaskUpdates t b).list = t.list := rfl
        rw [this]
        exact refT (tid, t) htm
    · rw [map_fst_replaceById]
      exact ndT
    · intro le hle te hte heq
      rcases mem_replaceById hte with h1 | ⟨hk, hd, v, hv⟩
      · exact own le hle te h1 heq
      · rw [hd] at heq ⊢
        have hlist : (applyTaskUpdates t b).list = t.list := rfl
        have huser : (applyTaskUpdates t b).user = t.user := rfl
        rw [hlist] at heq
        rw [huser]
        exact own le hle (tid, t) htm heq

theorem dbinv_listUpdate (s : DB) (lid : Nat) (newTitle : Option String)
    (h : DbInv s) : DbInv (listUpdate s lid newTitle).2 := by
  obtain ⟨kbU, kbL, kbT, refT, ndU, ndL, ndT, own⟩ := h
  unfold listUpdate
  split
  · exact ⟨kbU, kbL, kbT, refT, ndU, ndL, ndT, own⟩
  case _ l hl =>
  have hlm : (lid, l) ∈ s.lists := findById_mem hl
  split
  · exact ⟨kbU, kbL, kbT, refT, ndU, ndL, ndT, own⟩
  split
  · exact ⟨kbU, kbL, kbT, refT, ndU, ndL, ndT, own⟩
  split
  · exact ⟨kbU, kbL, kbT, refT, ndU, ndL, ndT, own⟩
  split
  · exact ⟨kbU, kbL, kbT, refT, ndU, ndL, ndT, own⟩
  · refine ⟨kbU, keyBound_replaceById kbL, kbT, refT, ndU, ?_, ndT, ?_⟩
    · rw [map_fst_replaceById]
      exact ndL
    · intro le hle te hte heq
      rcases mem_replaceById hle with h1 | ⟨hk, hd, v, hv⟩
      · exact own le h1 te hte heq
      · rw [hd]
        rw [hk] at heq
        exact own (lid, l) hlm te hte heq

theorem dbinv_userUpdate (s : DB) (uid : Nat) (b : UserBody) (h : DbInv s) :
    DbInv (userUpdate s uid b).2 := by
  obtain ⟨kbU, kbL, kbT, refT, ndU, ndL, ndT, own⟩ := h
  unfold userUpdate
  split
  · exact ⟨kbU, kbL, kbT, refT, ndU, ndL, ndT, own⟩
  split
  · exact ⟨kbU, kbL, kbT, refT, ndU, ndL, ndT, own⟩
  split
  · exact ⟨kbU, kbL, kbT, refT, ndU, ndL, ndT, own⟩
  · refine ⟨keyBound_replaceById kbU, kbL, kbT, refT, ?_, ndL, ndT, own⟩
    rw [map_fst_replaceById]
    exact ndU

theorem dbinv_listDelete (s : DB) (lid : Nat) (h : DbInv s) :
    DbInv (listDelete s lid).2 := by
  obtain ⟨kbU, kbL, kbT, refT, ndU, ndL, ndT, own⟩ := h
  unfold listDelete
  split
  · exact ⟨kbU, kbL, kbT, refT, ndU, ndL, ndT, own⟩
  · exact ⟨kbU, keyBound_filter kbL, kbT, refT, ndU, nodup_fst_filter ndL,
      ndT, fun le hle te hte heq =>
        own le (List.mem_of_mem_filter hle) te hte heq⟩

theorem dbinv_taskDelete (s : DB) (tid : Nat) (h : DbInv s) :
    DbInv (taskDelete s tid).2 := by
  obtain ⟨kbU, kbL, kbT, refT, ndU, ndL, ndT, own⟩ := h
  unfold taskDelete
  split
  · exact ⟨kbU, kbL, kbT, refT, ndU, ndL, ndT, own⟩
  · exact ⟨kbU, kbL, keyBound_filter kbT,
      fun e he => refT e (List.mem_of_mem_filter he), ndU, ndL,
      nodup_fst_filter ndT, fun le hle te hte heq =>
        own le hle te (List.mem_of_mem_filter hte) heq⟩

theorem dbinv_userDelete (s : DB) (uid : Nat) (h : DbInv s) :
    DbInv (userDelete s uid).2 := by
  obtain ⟨kbU, kbL, kbT, refT, ndU, ndL, ndT, own⟩ := h
  unfold userDelete
  dsimp only
  split
  · exact ⟨kbU, keyBound_filter kbL, keyBound_filter kbT,
      fun e he => refT e (List.mem_of_mem_filter he), ndU,
      nodup_fst_filter ndL, nodup_fst_filter ndT,
      fun le hle te hte heq =>
        own le (List.mem_of_mem_filter hle) te (List.mem_of_mem_filter hte) heq⟩
  · exact ⟨keyBound_filter kbU, keyBound_filter kbL, keyBound_filter kbT,
      fun e he => refT e (List.mem_of_mem_filter he), nodup_fst_filter ndU,
      nodup_fst_filter ndL, nodup_fst_filter ndT,
      fun le hle te hte heq =>
        own le (List.mem_of_mem_filter hle) te (List.mem_of_mem_filter hte) heq⟩

theorem dbRead_ok {c : List (Nat × α)} {k : Nat} {v : α}
    (h : dbRead c k = Except.ok v) : findById c k = some v := by
  unfold dbRead at h
  cases hf : findById c k with
  | none => rw [hf] at h; cases h
  | some d => rw [hf] at h; cases h; rfl

theorem dbinv_registerUser (s : DB) (b : RegisterBody) (f : Bool)
    (h : DbInv s) : DbInv (registerUser s b f).2 := by
  unfold registerUser
  split
  · exact h
  split
  · exact h
  split
  case _ m s1 heq =>
    have hh := dbinv_userCreate s b.toUserBody h
    rw [heq] at hh
    exact hh
  case _ s1 heq =>
    have hh := dbinv_userCreate s b.toUserBody h
    rw [heq] at hh
    exact hh
  case _ e s1 _ heq =>
    have hh := dbinv_userCreate s b.toUserBody h
    rw [heq] at hh
    exact hh
  case _ uid d s1 heq =>
    have hh := dbinv_userCreate s b.toUserBody h
    rw [heq] at hh
    split
    · exact hh
    split
    case _ m s2 heq2 =>
      have hh2 := dbinv_listCreate s1 (some ("Tasks")) uid hh
      rw [heq2] at hh2
      exact hh2
    case _ s2 heq2 =>
      have hh2 := dbinv_listCreate s1 (some ("Tasks")) uid hh
      rw [heq2] at hh2
      exact hh2
    case _ e s2 _ heq2 =>
      have hh2 := dbinv_listCreate s1 (some ("Tasks")) uid hh
      rw [heq2] at hh2
      exact hh2
    case _ r s2 heq2 =>
      have hh2 := dbinv_listCreate s1 (some ("Tasks")) uid hh
      rw [heq2] at hh2
      exact hh2

theorem dbinv_updateUserProfile (s : DB) (uid : Nat) (b : UserBody)
    (c : Option String) (h : DbInv s) :
    DbInv (updateUserProfile s uid b c).2 := by
  unfold updateUserProfile
  split
  · exact h
  split
  · exact h
  split
  · exact h
  split
  all_goals
    rename_i heq
    have hh := dbinv_userUpdate s uid b h
    rw [heq] at hh
    exact hh

theorem dbinv_deleteUser (s : DB) (uid : Nat) (h : DbInv s) :
    DbInv (deleteUser s uid).2 := by
  unfold deleteUser
  split
  · exact h
  · exact dbinv_userDelete s uid h

theorem dbinv_resetPassword (s : DB) (now : Nat) (token : String)
    (b : ResetBody) (h : DbInv s) : DbInv (resetPassword s now token b).db := by
  obtain ⟨kbU, kbL, kbT, refT, ndU, ndL, ndT, own⟩ := h
  unfold resetPassword
  dsimp only
  split
  · exact ⟨kbU, kbL, kbT, refT, ndU, ndL, ndT, own⟩
  split
  · exact ⟨kbU, kbL, kbT, refT, ndU, ndL, ndT, own⟩
  split
  · exact ⟨kbU, kbL, kbT, refT, ndU, ndL, ndT, own⟩
  split
  · exact ⟨kbU, kbL, kbT, refT, ndU, ndL, ndT, own⟩
  · refine ⟨keyBound_replaceById kbU, kbL, kbT, refT, ?_, ndL, ndT, own⟩
    rw [map_fst_replaceById]
    exact ndU

theorem dbinv_forgotPassword (s : DB) (now : Nat) (email token : String)
    (h : DbInv s) : DbInv (forgotPassword s now email token).2 := by
  obtain ⟨kbU, kbL, kbT, refT, ndU, ndL, ndT, own⟩ := h
  unfold forgotPassword
  split
  · exact ⟨kbU, kbL, kbT, refT, ndU, ndL, ndT, own⟩
  split
  · exact ⟨kbU, kbL, kbT, refT, ndU, ndL, ndT, own⟩
  · refine ⟨keyBound_replaceById kbU, kbL, kbT, refT, ?_, ndL, ndT, own⟩
    rw [map_fst_replaceById]
    exact ndU

theorem dbinv_createList (s : DB) (uid : Nat) (title : Option String)
    (h : DbInv s) : DbInv (createList s uid title).2 := by
  unfold createList
  split
  · exact h
  split
  all_goals
    rename_i heq
    have hh := dbinv_listCreate s title uid h
    rw [heq] at hh
    exact hh

theorem dbinv_updateList (s : DB) (uid lid : Nat) (t : Option String)
    (h : DbInv s) : DbInv (updateList s uid lid t).2 := by
  unfold updateList
  split
  · exact h
  split
  · exact h
  split
  · exact h
  split
  all_goals
    rename_i heq
    have hh := dbinv_listUpdate s lid t h
    rw [heq] at hh
    exact hh

theorem dbinv_deleteList (s : DB) (uid lid : Nat) (h : DbInv s) :
    DbInv (deleteList s uid lid).2 := by
  unfold deleteList
  split
  · exact h
  split
  · exact h
  split
  · exact h
  split
  all_goals
    rename_i heq
    have hh := dbinv_listDelete s lid h
    rw [heq] at hh
    exact hh

theorem dbinv_createTask (s : DB) (uid : Nat) (b : TaskBody) (lid : Nat)
    (h : DbInv s) : DbInv (createTask s uid b lid).2 := by
  unfold createTask
  split
  · exact h
  split
  · exact h
  case _ l heql =>
  split
  · exact h
  case _ hown =>
  have hl : findById s.lists lid = some l := dbRead_ok heql
  have hu : l.user = uid := by
    simp at hown
    exact hown
  split
  all_goals
    rename_i heq
    have hh := dbinv_taskCreate s b lid uid hl hu h
    rw [heq] at hh
    exact hh

theorem dbinv_updateTask (s : DB) (uid tid : Nat) (b : TaskBody)
    (h : DbInv s) : DbInv (updateTask s uid tid b).2 := by
  unfold updateTask
  split
  · exact h
  split
  · exact h
  split
  · exact h
  split
  all_goals
    rename_i heq
    have hh := dbinv_taskUpdate s tid b h
    rw [heq] at hh
    exact hh

theorem dbinv_deleteTask (s : DB) (uid tid : Nat) (h : DbInv s) :
    DbInv (deleteTask s uid tid).2 := by
  unfold deleteTask
  split
  · exact h
  split
  · exact h
  split
  · exact h
  split
  all_goals
    rename_i heq
    have hh := dbinv_taskDelete s tid h
    rw [heq] at hh
    exact hh

theorem step_dbinv {s s2 : DB} (h : DbInv s) (hs : Step s s2) : DbInv s2 := by
  cases hs with
  | register b f => exact dbinv_registerUser s b f h
  | profileUpdate uid b c => exact dbinv_updateUserProfile s uid b c h
  | accountDelete uid => exact dbinv_deleteUser s uid h
  | pwReset now token b => exact dbinv_resetPassword s now token b h
  | pwForgot now email token => exact dbinv_forgotPassword s now email token h
  | listCreateStep uid title => exact dbinv_createList s uid title h
  | listUpdateStep uid lid t => exact dbinv_updateList s uid lid t h
  | listDeleteStep uid lid => exact dbinv_deleteList s uid lid h
  | taskCreateStep uid b lid => exact dbinv_createTask s uid b lid h
  | taskUpdateStep uid tid b => exact dbinv_updateTask s uid tid b h
  | taskDeleteStep uid tid => exact dbinv_deleteTask s uid tid h

theorem reachable_dbinv {s : DB} (h : Reachable s) : DbInv s := by
  induction h with
  | init => decide
  | step _ hs ih => exact step_dbinv ih hs

theorem triFilter_perm (l : List TaskDoc)
    (h : ∀ t ∈ l, t.status ∈ statusEnum) :
    (l.filter (fun t => t.status == "ongoing") ++
      (l.filter (fun t => t.status == "unassigned") ++
        l.filter (fun t => t.status == "done"))).Perm l := by
  induction l with
  | nil => simp
  | cons t l ih =>
    have ht := h t (List.mem_cons_self t l)
    have hl : ∀ x ∈ l, x.status ∈ statusEnum :=
      fun x hx => h x (List.mem_cons_of_mem t hx)
    simp [statusEnum] at ht
    rcases ht with h1 | h2 | h3
    · simp only [List.filter_cons, h1]
      simp
      exact ih hl
    · simp only [List.filter_cons, h2]
      simp
      refine List.Perm.trans List.perm_middle ?_
      exact (ih hl).cons t
    · simp only [List.filter_cons, h3]
      simp
      refine List.Perm.trans (List.Perm.append_left _ List.perm_middle) ?_
      refine List.Perm.trans List.perm_middle ?_
      exact (ih hl).cons t

/-- Demo stored user (password already hashed, as persisted). -/
def demoUser : UserDoc :=
  { firstName := "Ana", lastName := "Diaz", age := 20,
    email := "ana@mail.com", password := bcryptHash ("Passw0rd!") }

/-- Demo second stored user. -/
def demoUser2 : UserDoc :=
  { firstName := "Luis", lastName := "Rey", age := 30,
    email := "luis@mail.com", password := bcryptHash ("Str0ng#pw") }

/-- Database with one user and no lists. -/
def dbMissingList : DB :=
  { users := [(0, demoUser)], lists := [], tasks := [], nextId := 1 }

/-- Database where list 2 belongs to user 1, not to user 0. -/
def dbForeignList : DB :=
  { users := [(0, demoUser), (1, demoUser2)],
    lists := [(2, { title := "Own", user := 1 })], tasks := [], nextId := 3 }

/-- C1: for a mutating List/Task operation whose target exists but is
owned by another user, the controllers do answer Forbidden 403 with the
store unchanged, and a missing target is never answered Forbidden; but a
missing target is answered 500, not 404: `GlobalDAO.read` throws
`Error("Document not found")`, the catch-all maps it to the generic 500,
and the `if (!list) return 404` branch of the controller (and its own
documented 404) is unreachable.  The second conjunct evaluates the code
at the failing input of the claim. -/
theorem C1_missing_entity_is_500_not_404 :
    updateList dbForeignList 0 2 (some ("Nueva")) =
        ((403, "Acción prohibida"), dbForeignList) ∧
      updateList dbMissingList 0 5 (some ("Nueva")) =
        (internalErr, dbMissingList) ∧
      internalErr.1 = 500 ∧ ¬internalErr.1 = 404 := by
  refine ⟨by decide, by decide, rfl, by decide⟩

/-- Registration request used in the traces below. -/
def regBody : RegisterBody :=
  { firstName := some ("Ana"), lastName := some ("Diaz"), age := some 20,
    email := some ("ana@mail.com"), password := some ("Passw0rd!"),
    confirmPassword := some ("Passw0rd!") }

/-- C3: with a failure injected between the user insert and the default
list insert (the failure simulation the specification asks for),
registration answers 500 but the User document REMAINS persisted with no
default "Tasks" list: neither insert is attached to the started session
(`GlobalDAO.create(data)` ignores the `{ session }` argument and the user
create is not given the session at all), so `withTransaction` rolls back
nothing. -/
theorem C3_registration_not_atomic :
    (registerUser initDB regBody true).1 = internalErr ∧
      (registerUser initDB regBody true).2.users.any
        (fun e => e.2.email == "ana@mail.com") = true ∧
      (registerUser initDB regBody true).2.lists = [] := by
  refine ⟨by decide, by decide, by decide⟩

/-- Reset request carrying a plaintext credential. -/
def resetBodyDemo : ResetBody :=
  { password := some ("NuevaPass1!"), confirmPassword := some ("NuevaPass1!") }

/-- C7: the first statement of resetPassword is
`console.log("RESET BODY:", req.body)`: the log receives the full request
body, which contains the plaintext credential, on every reset request —
the plaintext credential is logged. -/
theorem C7_resetPassword_logs_plaintext :
    (resetPassword dbMissingList 1000 "tok123" resetBodyDemo).log =
        [LogItem.resetBody resetBodyDemo, LogItem.resetToken ("tok123")] ∧
      resetBodyDemo.password = some ("NuevaPass1!") := by
  refine ⟨by decide, rfl⟩

/-- State after registering the demo user (creates user 0 and its default
"Tasks" list 1). -/
def stReg : DB := (registerUser initDB regBody false).2

/-- Task creation request used in the trace. -/
def taskBodyDemo : TaskBody := { title := some ("Comprar pan") }

/-- State after user 0 creates a task (id 2) in its default list 1. -/
def stTask : DB := (createTask stReg 0 taskBodyDemo 1).2

/-- State after user 0 deletes list 1: task 2 still references it. -/
def stListGone : DB := (deleteList stTask 0 1).2

/-- C2 counterexample: a reachable state in which a Task references a
deleted parent List — deleteList removes only the list document
(`ListDAO` inherits the plain GlobalDAO.delete), so the tasks of the list
survive with a dangling `list` reference, refuting the no-dangling part
of the claim. -/
theorem C2_counterexample_task_outlives_list :
    Reachable stListGone ∧
      (deleteList stTask 0 1).1 = (200, "Lista eliminada exitosamente") ∧
      stListGone.tasks.any
        (fun e => (findById stListGone.lists e.2.list).isNone) = true := by
  refine ⟨?_, by decide, by decide⟩
  exact Reachable.step (Reachable.step (Reachable.step Reachable.init
    (Step.register initDB regBody false))
    (Step.taskCreateStep stReg 0 taskBodyDemo 1))
    (Step.listDeleteStep stTask 0 1)

/-- C2 amended: in every reachable state a Task whose parent List still
exists has the same owner as that List; UserDAO.delete removes every List
and Task whose user field references the deleted user; and a successful
task creation requires the parent list to exist with the actor as owner
and stamps the actor id on the stored task.  (Deleting a List, however,
leaves its Tasks in place — see the counterexample.) -/
theorem C2_amended_ownership :
    (∀ s : DB, Reachable s → OwnInv s) ∧
      (∀ (s : DB) (uid : Nat),
        (∀ e ∈ (userDelete s uid).2.lists, ¬e.2.user = uid) ∧
        (∀ e ∈ (userDelete s uid).2.tasks, ¬e.2.user = uid)) ∧
      (∀ (s : DB) (actorId : Nat) (b : TaskBody) (lid : Nat),
        (createTask s actorId b lid).1.1 = 200 →
        ∃ l : ListDoc, findById s.lists lid = some l ∧ l.user = actorId ∧
          ∃ doc : TaskDoc, doc.user = actorId ∧ doc.list = lid ∧
            (createTask s actorId b lid).2.tasks =
              s.tasks ++ [(s.nextId, doc)]) := by
  refine ⟨?_, ?_, ?_⟩
  · exact fun s hr => (reachable_dbinv hr).2.2.2.2.2.2.2
  · intro s uid
    unfold userDelete
    dsimp only
    constructor
    · split
      all_goals
        intro e he
        have hp := (List.mem_filter.mp he).2
        simpa using hp
    · split
      all_goals
        intro e he
        have hp := (List.mem_filter.mp he).2
        simpa using hp
  · intro s actorId b lid
    unfold createTask
    split
    · intro h200
      simp [internalErr] at h200
    split
    · intro h200
      simp [internalErr] at h200
    case _ l heql =>
    split
    · intro h200
      simp at h200
    case _ hown =>
    have hl : findById s.lists lid = some l := dbRead_ok heql
    have hu : l.user = actorId := by
      simp at hown
      exact hown
    split
    · intro h200
      simp at h200
    · intro h200
      simp [internalErr] at h200
    case _ v s2 heq =>
      intro _
      unfold taskCreate at heq
      split at heq
      · simp at heq
      · dsimp only at heq
        rw [Prod.mk.injEq] at heq
        obtain ⟨h1, h2⟩ := heq
        refine ⟨l, hl, hu,
          { title := (b.title.getD ("")).trimJs,
            description := b.description.map String.trimJs,
            status := b.status.getD ("unassigned"),
            dueDate := b.dueDate, list := lid, user := actorId },
          rfl, rfl, ?_⟩
        rw [← h2]

/-- Witness instantiating the amended C2 theorem on concrete states. -/
theorem C2_amended_ownership_witness :
    OwnInv stTask ∧
      (∀ e ∈ (userDelete dbForeignList 1).2.lists, ¬e.2.user = 1) ∧
      (∃ l : ListDoc, findById stReg.lists 1 = some l ∧ l.user = 0 ∧
        ∃ doc : TaskDoc, doc.user = 0 ∧ doc.list = 1 ∧
          (createTask stReg 0 taskBodyDemo 1).2.tasks =
            stReg.tasks ++ [(stReg.nextId, doc)]) :=
  ⟨C2_amended_ownership.1 stTask
      (Reachable.step (Reachable.step Reachable.init
        (Step.register initDB regBody false))
        (Step.taskCreateStep stReg 0 taskBodyDemo 1)),
    (C2_amended_ownership.2.1 dbForeignList 1).1,
    C2_amended_ownership.2.2 stReg 0 taskBodyDemo 1 (by decide)⟩

/-- Two tasks that compare equal on both sort keys, stored in insertion
order tiedA then tiedB. -/
def tiedA : TaskDoc :=
  { title := "a", status := "ongoing", dueDate := some 100, list := 7,
    user := 0 }

/-- Second of the two tied tasks. -/
def tiedB : TaskDoc :=
  { title := "b", status := "ongoing", dueDate := some 100, list := 7,
    user := 0 }

/-- Task collection holding the two tied tasks in insertion order. -/
def tiedTasks : List (Nat × TaskDoc) := [(0, tiedA), (1, tiedB)]

/-- The tied tasks in the opposite of their insertion order. -/
def tiedSwapped : List TaskDoc := [tiedB, tiedA]

/-- C4 counterexample: the collection stores the tied tasks as
[tiedA, tiedB], both with the same status bucket and the same due date;
the swapped sequence [tiedB, tiedA] is an admissible return of the
pipeline (a permutation of the matched documents, still ordered by the
two keys), so a return in which tasks equal on both keys do NOT keep
their original relative order is possible — `$sort` guarantees no stable
tie order, refuting the stability part of the claim. -/
theorem C4_counterexample_sort_not_stable :
    getTasksByListOrdered tiedTasks 7 tiedSwapped ∧
      ((tiedTasks.map (fun e => e.2)).filter (fun t => t.list == 7)) =
        [tiedA, tiedB] ∧
      ¬tiedSwapped = [tiedA, tiedB] ∧
      taskKey tiedA = taskKey tiedB := by
  refine ⟨⟨List.Perm.swap tiedA tiedB [], by decide⟩, by decide, by decide,
    by decide⟩

/-- C4 amended: every admissible return of getTasksByListOrdered is a
permutation of exactly the tasks of the list (no task filtered out, none
added) arranged by the two keys — status bucket ongoing 0, unassigned 1,
done 2, anything else 3, then due date ascending with an absent due date
as the sentinel maximum — at least one admissible return exists, and an
in-memory two-key sort of the matched documents in any scan order is
admissible; the relative order of tasks equal on both keys is, however,
not guaranteed (see the counterexample). -/
theorem C4_amended_ordering :
    (∀ (tasks : List (Nat × TaskDoc)) (lid : Nat) (out : List TaskDoc),
      getTasksByListOrdered tasks lid out →
      out.Perm ((tasks.map (fun e => e.2)).filter (fun t => t.list == lid)) ∧
        List.Pairwise
          (fun a b =>
            statusOrder a.status < statusOrder b.status ∨
              (statusOrder a.status = statusOrder b.status ∧
                dueForSort a.dueDate ≤ dueForSort b.dueDate)) out) ∧
      (∀ (tasks : List (Nat × TaskDoc)) (lid : Nat) (docs : List TaskDoc),
        docs.Perm (tasks.map (fun e => e.2)) →
        getTasksByListOrdered tasks lid
          (List.insertionSort taskSortLe
            (docs.filter (fun t => t.list == lid)))) ∧
      ∀ (tasks : List (Nat × TaskDoc)) (lid : Nat),
        ∃ out, getTasksByListOrdered tasks lid out := by
  have hrun : ∀ (tasks : List (Nat × TaskDoc)) (lid : Nat)
      (docs : List TaskDoc), docs.Perm (tasks.map (fun e => e.2)) →
      getTasksByListOrdered tasks lid
        (List.insertionSort taskSortLe
          (docs.filter (fun t => t.list == lid))) := by
    intro tasks lid docs hperm
    constructor
    · exact (List.perm_insertionSort taskSortLe _).trans
        (hperm.filter (fun t => t.list == lid))
    · exact List.sorted_insertionSort taskSortLe _
  refine ⟨?_, hrun, ?_⟩
  · intro tasks lid out h
    exact ⟨h.1, h.2⟩
  · intro tasks lid
    exact ⟨_, hrun tasks lid (tasks.map (fun e => e.2)) (List.Perm.refl _)⟩

/-- Witness instantiating the amended C4 theorem: the swapped tied
return, and the two-key in-memory sort of the tied collection in its
stored scan order. -/
theorem C4_amended_ordering_witness :
    (tiedSwapped.Perm
        ((tiedTasks.map (fun e => e.2)).filter (fun t => t.list == 7)) ∧
      List.Pairwise
        (fun a b =>
          statusOrder a.status < statusOrder b.status ∨
            (statusOrder a.status = statusOrder b.status ∧
              dueForSort a.dueDate ≤ dueForSort b.dueDate)) tiedSwapped) ∧
      getTasksByListOrdered tiedTasks 7
        (List.insertionSort taskSortLe
          ((tiedTasks.map (fun e => e.2)).filter (fun t => t.list == 7))) :=
  ⟨C4_amended_ordering.1 tiedTasks 7 tiedSwapped
      ⟨List.Perm.swap tiedA tiedB [], by decide⟩,
    C4_amended_ordering.2.1 tiedTasks 7 (tiedTasks.map (fun e => e.2))
      (List.Perm.refl _)⟩

/-- Ordering check of the specification: statuses
[done, ongoing, unassigned, ongoing] with due dates
[2024-01-01, null, 2024-06-01, 2024-03-01]: the sequence d, b, c, a (the
two ongoing tasks first, 2024-03-01 before the absent date, then
unassigned, then done) is an admissible return of the pipeline.  Dates
are epoch milliseconds. -/
theorem getTasksByListOrdered_spec_example :
    getTasksByListOrdered
      [(0, { title := "a", status := "done", dueDate := some 1704067200000,
             list := 7, user := 0 }),
       (1, { title := "b", status := "ongoing", dueDate := none,
             list := 7, user := 0 }),
       (2, { title := "c", status := "unassigned",
             dueDate := some 1717200000000, list := 7, user := 0 }),
       (3, { title := "d", status := "ongoing", dueDate := some 1709251200000,
             list := 7, user := 0 })] 7
      [{ title := "d", status := "ongoing", dueDate := some 1709251200000,
         list := 7, user := 0 },
       { title := "b", status := "ongoing", dueDate := none,
         list := 7, user := 0 },
       { title := "c", status := "unassigned", dueDate := some 1717200000000,
         list := 7, user := 0 },
       { title := "a", status := "done", dueDate := some 1704067200000,
         list := 7, user := 0 }] := by
  decide

/-- Uniqueness of the (title, user) pair across the List collection (the
unique compound index of list.js). -/
def ListKeyUnique (c : List (Nat × ListDoc)) : Prop :=
  c.Pairwise (fun a b => ¬(a.2.title = b.2.title ∧ a.2.user = b.2.user))

instance (c : List (Nat × ListDoc)) : Decidable (ListKeyUnique c) := by
  unfold ListKeyUnique
  exact inferInstance

theorem listCreate_keyUnique (s : DB) (title : Option String) (uid : Nat)
    (hp : ListKeyUnique s.lists) :
    ListKeyUnique (listCreate s title uid).2.lists := by
  unfold listCreate
  split
  · exact hp
  · dsimp only
    split
    · exact hp
    case _ hany =>
      unfold ListKeyUnique
      rw [List.pairwise_append]
      refine ⟨hp, List.pairwise_singleton _ _, ?_⟩
      intro a ha b hb
      simp only [List.mem_singleton] at hb
      subst hb
      intro hcon
      apply hany
      rw [List.any_eq_true]
      refine ⟨a, ha, ?_⟩
      simp [hcon.1, hcon.2]

theorem createList_keyUnique (s : DB) (uid : Nat) (title : Option String)
    (hp : ListKeyUnique s.lists) :
    ListKeyUnique (createList s uid title).2.lists := by
  unfold createList
  split
  · exact hp
  split
  all_goals
    rename_i heq
    have hh := listCreate_keyUnique s title uid hp
    rw [heq] at hh
    exact hh

/-- C5: when the actor exists, the title passes validation and the actor
already owns a list with exactly that (trimmed, case-sensitive) title,
createList answers 409 with the conflict message and the database — in
particular the existing list — is unchanged; and createList preserves
uniqueness of the (title, user) pair across the List collection. -/
theorem C5_duplicate_title_conflict :
    (∀ (s : DB) (uid : Nat) (title : Option String),
      ¬findById s.users uid = none →
      listValidate title = none →
      (∃ e ∈ s.lists,
        e.2.title = (title.getD ("")).trimJs ∧ e.2.user = uid) →
      createList s uid title =
        ((409, "Ya existe una lista con ese título"), s)) ∧
      ∀ (s : DB) (uid : Nat) (title : Option String),
        ListKeyUnique s.lists →
        ListKeyUnique (createList s uid title).2.lists := by
  constructor
  · intro s uid title hu hv hdup
    have hany : (s.lists.any fun e =>
        e.2.title == (title.getD ("")).trimJs && e.2.user == uid) = true := by
      rw [List.any_eq_true]
      obtain ⟨e, he, h1, h2⟩ := hdup
      exact ⟨e, he, by simp [h1, h2]⟩
    cases hf : findById s.users uid with
    | none => exact absurd hf hu
    | some u => simp [createList, dbRead, hf, listCreate, hv, hany]
  · exact fun s uid title hp => createList_keyUnique s uid title hp

/-- Database in which user 0 already owns a list titled Compras. -/
def dbDupList : DB :=
  { users := [(0, demoUser)],
    lists := [(1, { title := "Compras", user := 0 })], tasks := [],
    nextId := 2 }

/-- Witness instantiating C5 on a concrete duplicate creation. -/
theorem C5_duplicate_title_conflict_witness :
    createList dbDupList 0 (some ("Compras")) =
        ((409, "Ya existe una lista con ese título"), dbDupList) ∧
      ListKeyUnique (createList dbDupList 0 (some ("Compras"))).2.lists :=
  ⟨C5_duplicate_title_conflict.1 dbDupList 0 (some ("Compras")) (by decide)
      (by decide) ⟨(1, { title := "Compras", user := 0 }), by decide, by decide,
        by decide⟩,
    C5_duplicate_title_conflict.2 dbDupList 0 (some ("Compras")) (by decide)⟩

/-- Stored user document after a successful password reset: credential
replaced by its hash, both reset fields cleared (the single save of
resetPassword). -/
def resetSuccessDoc (u : UserDoc) (pw : String) : UserDoc :=
  { u with password := bcryptHash pw, resetPasswordToken := none,
           resetPasswordExpires := none }

/-- C6: resetPassword fails with the single generic invalid-or-expired
message whenever no stored user carries the supplied token unexpired
(covering an absent stored token, a mismatched token and a past expiry),
leaving the database — hence the stored credential — unchanged; a
credential/confirmation mismatch fails before any user lookup (the
response does not depend on the database, the clock or the token) with
the database unchanged; and on success the credential is replaced by its
hash and both token fields are cleared in the same single-document
write. -/
theorem C6_resetPassword_contract :
    (∀ (s1 s2 : DB) (n1 n2 : Nat) (t1 t2 : String) (b : ResetBody),
      strFalsy b.password = false → strFalsy b.confirmPassword = false →
      ¬b.password = b.confirmPassword →
      (resetPassword s1 n1 t1 b).resp = (400, "Las contraseñas no coinciden") ∧
        (resetPassword s1 n1 t1 b).db = s1 ∧
        (resetPassword s1 n1 t1 b).resp = (resetPassword s2 n2 t2 b).resp) ∧
      (∀ (s : DB) (now : Nat) (token : String) (b : ResetBody),
        strFalsy b.password = false → strFalsy b.confirmPassword = false →
        b.password = b.confirmPassword →
        (∀ e ∈ s.users, ¬(e.2.resetPasswordToken = some token ∧
            expiresOk now e.2.resetPasswordExpires = true)) →
        (resetPassword s now token b).resp =
            (400, "Token no válida o expirada") ∧
          (resetPassword s now token b).db = s) ∧
      ∀ (s : DB) (now : Nat) (token : String) (b : ResetBody) (uid : Nat)
        (u : UserDoc) (pw : String),
        b.password = some pw → b.confirmPassword = some pw → ¬pw = "" →
        s.users.find? (fun e => e.2.resetPasswordToken == some token &&
            expiresOk now e.2.resetPasswordExpires) = some (uid, u) →
        userValidate u.firstName u.lastName (some u.age) u.email pw = none →
        (resetPassword s now token b).resp =
            (200, "Password has been reset successfully") ∧
          (resetPassword s now token b).db =
            { s with users := replaceById s.users uid (resetSuccessDoc u pw) } := by
  refine ⟨?_, ?_, ?_⟩
  · intro s1 s2 n1 n2 t1 t2 b h1 h2 hne
    have hb : (b.password == b.confirmPassword) = false := by
      simp [hne]
    simp [resetPassword, h1, h2, hb]
  · intro s now token b h1 h2 heq hno
    have hfind : s.users.find? (fun e =>
        e.2.resetPasswordToken == some token &&
        expiresOk now e.2.resetPasswordExpires) = none := by
      rw [List.find?_eq_none]
      intro e he
      have hcon := hno e he
      simp only [Bool.and_eq_true, beq_iff_eq]
      intro hcontra
      exact hcon ⟨hcontra.1, hcontra.2⟩
    simp [resetPassword, h1, h2, heq, hfind]
  · intro s now token b uid u pw hp hc hpw hfind hval
    have h1 : strFalsy b.password = false := by simp [hp, strFalsy, hpw]
    have h2 : strFalsy b.confirmPassword = false := by
      simp [hc, strFalsy, hpw]
    have hb : (b.password == b.confirmPassword) = true := by simp [hp, hc]
    simp [resetPassword, h1, h2, hb, hfind, hp, hc, hval, resetSuccessDoc,
      strFalsy, hpw]

/-- Stored user holding a reset token that expires at time 5000. -/
def demoUserTok : UserDoc :=
  { demoUser with resetPasswordToken := some ("tok123"),
                  resetPasswordExpires := some 5000 }

/-- Database with the token-holding user. -/
def dbTok : DB :=
  { users := [(0, demoUserTok)], lists := [], tasks := [], nextId := 1 }

/-- Reset request whose confirmation does not match. -/
def mismatchBody : ResetBody :=
  { password := some ("Aa1!aaaa"), confirmPassword := some ("Bb2@bbbb") }

/-- Witness instantiating C6: a mismatched confirmation (response
independent of the store), an expired token (clock 9999 past expiry
5000, credential unchanged), and a successful reset. -/
theorem C6_resetPassword_contract_witness :
    ((resetPassword dbTok 1000 "t1" mismatchBody).resp =
        (400, "Las contraseñas no coinciden") ∧
      (resetPassword dbTok 1000 "t1" mismatchBody).db = dbTok ∧
      (resetPassword dbTok 1000 "t1" mismatchBody).resp =
        (resetPassword initDB 0 "t2" mismatchBody).resp) ∧
      ((resetPassword dbTok 9999 "tok123" resetBodyDemo).resp =
          (400, "Token no válida o expirada") ∧
        (resetPassword dbTok 9999 "tok123" resetBodyDemo).db = dbTok) ∧
      ((resetPassword dbTok 1000 "tok123" resetBodyDemo).resp =
          (200, "Password has been reset successfully") ∧
        (resetPassword dbTok 1000 "tok123" resetBodyDemo).db =
          { dbTok with
            users := replaceById dbTok.users 0 (resetSuccessDoc demoUserTok ("NuevaPass1!")) }) :=
  ⟨C6_resetPassword_contract.1 dbTok initDB 1000 0 "t1" "t2" mismatchBody
      (by decide) (by decide) (by decide),
    C6_resetPassword_contract.2.1 dbTok 9999 "tok123" resetBodyDemo
      (by decide) (by decide) rfl (by decide),
    C6_resetPassword_contract.2.2 dbTok 1000 "tok123" resetBodyDemo 0
      demoUserTok ("NuevaPass1!") rfl rfl (by decide) (by decide) (by decide)⟩

/-- C8: the two login failure runs are indistinguishable — for an
unknown email and for a known email whose bcrypt comparison fails, login
answers the same 401 status with the identical message text (the two
string literals of the source coincide), leaking nothing about whether
the email is registered. -/
theorem C8_login_failures_indistinguishable :
    (∀ (s : DB) (email pw : String),
      ¬email = "" → ¬pw = "" →
      s.users.find? (fun e => e.2.email == email) = none →
      login s email pw =
        Except.error (401, "Email or password are incorrect")) ∧
      ∀ (s : DB) (email pw : String) (uid : Nat) (u : UserDoc),
        ¬email = "" → ¬pw = "" →
        s.users.find? (fun e => e.2.email == email) = some (uid, u) →
        bcryptCompare pw u.password = false →
        login s email pw =
          Except.error (401, "Email or password are incorrect") := by
  constructor
  · intro s email pw he hp hfind
    simp [login, he, hp, hfind]
  · intro s email pw uid u he hp hfind hcmp
    simp [login, he, hp, hfind, hcmp]

/-- Witness instantiating C8: unknown email versus known email with a
wrong credential, both at the same concrete store. -/
theorem C8_login_failures_indistinguishable_witness :
    login dbMissingList ("no@mail.com") ("whatever") =
        Except.error (401, "Email or password are incorrect") ∧
      login dbMissingList ("ana@mail.com") ("WrongPw9#") =
        Except.error (401, "Email or password are incorrect") :=
  ⟨C8_login_failures_indistinguishable.1 dbMissingList ("no@mail.com")
      ("whatever") (by decide) (by decide) (by decide),
    C8_login_failures_indistinguishable.2 dbMissingList ("ana@mail.com")
      ("WrongPw9#") 0 demoUser (by decide) (by decide) (by decide) (by decide)⟩

/-- Profile update touching only the first name (no credential fields). -/
def bodyOnlyName : UserBody := { firstName := some ("Nuevo") }

/-- C9 counterexample: a partial profile update that touches only the
first name and supplies no credential confirmation is REJECTED with 400
("Todos los campos son requeridos") and the store is unchanged — the
`if (!confirmPassword)` guard of updateUserProfile runs on every update,
not only when the credential changes, refuting the claim that such an
update succeeds. -/
theorem C9_counterexample_confirmation_always_required :
    updateUserProfile dbMissingList 0 bodyOnlyName none =
        ((400, "Todos los campos son requeridos"), dbMissingList) ∧
      ¬(updateUserProfile dbMissingList 0 bodyOnlyName none).1.1 = 200 := by
  refine ⟨by decide, by decide⟩

/-- Update-profile body that only lowers the age below 13. -/
def bodyYoung : UserBody :=
  { age := some 10, password := some ("Xy1!pass") }

/-- Registration body with the same invalid age. -/
def regBodyYoung : RegisterBody :=
  { firstName := some ("Kid"), lastName := some ("Uno"), age := some 10,
    email := some ("kid@mail.com"), password := some ("Xy1!pass"),
    confirmPassword := some ("Xy1!pass") }

/-- C9 amended: every profile update requires a present, matching
credential confirmation (a missing confirmation or a mismatch answers
400 with the store unchanged); given a matching pair, a partial update of
the other fields succeeds, untouched fields keeping their stored values;
and the updated fields are re-validated by the same schema rules and
messages as registration (last conjunct: the same under-age body is
rejected by both paths with the identical schema message). -/
theorem C9_amended_profile_update :
    (∀ (s : DB) (uid : Nat) (b : UserBody),
      updateUserProfile s uid b none =
        ((400, "Todos los campos son requeridos"), s)) ∧
      (∀ (s : DB) (uid : Nat) (b : UserBody) (c : String),
        ¬c = "" → ¬b.password = some c →
        updateUserProfile s uid b (some c) =
          ((400, "Las contraseñas no coinciden"), s)) ∧
      (∀ (s : DB) (uid : Nat) (b : UserBody) (c : String) (u : UserDoc),
        ¬c = "" → b.password = some c →
        c.startsWithJs ("$2b$") = false →
        findById s.users uid = some u →
        userUpdateValidate b = none →
        (b.email.isSome && s.users.any
          (fun e => !(e.1 == uid) && e.2.email == b.email.getD (""))) = false →
        ∃ u3 : UserDoc,
          updateUserProfile s uid b (some c) =
            ((200, "Perfil exitosamente actualizado"),
              { s with users := replaceById s.users uid u3 }) ∧
          u3.firstName = (b.firstName.map String.trimJs).getD u.firstName ∧
          u3.lastName = (b.lastName.map String.trimJs).getD u.lastName ∧
          u3.age = b.age.getD u.age ∧
          u3.email = b.email.getD u.email ∧
          u3.password = bcryptHash c) ∧
      (updateUserProfile dbMissingList 0 bodyYoung (some ("Xy1!pass")) =
          ((400, msgAgeMin), dbMissingList) ∧
        registerUser initDB regBodyYoung false = ((400, msgAgeMin), initDB)) := by
  refine ⟨?_, ?_, ?_, by decide, by decide⟩
  · intro s uid b
    simp [updateUserProfile, strFalsy]
  · intro s uid b c hc hne
    simp [updateUserProfile, strFalsy, hc, hne]
  · intro s uid b c u hc hp hns hfind hval hdup
    refine ⟨{ applyUserUpdates u b with password := bcryptHash c }, ?_, by
      simp [applyUserUpdates], by simp [applyUserUpdates],
      by simp [applyUserUpdates], by simp [applyUserUpdates], rfl⟩
    have hpw2 : (applyUserUpdates u b).password = c := by
      simp [applyUserUpdates, hp]
    simp [updateUserProfile, strFalsy, hc, hp, dbRead, hfind, userUpdate,
      hval, hdup, hns, hpw2]

/-- Profile update changing the first name, credential supplied. -/
def bodyNameAndPw : UserBody :=
  { firstName := some ("Nuevo"), password := some ("Passw0rd!") }

/-- Witness instantiating the amended C9 theorem on concrete requests. -/
theorem C9_amended_profile_update_witness :
    updateUserProfile dbMissingList 0 bodyOnlyName none =
        ((400, "Todos los campos son requeridos"), dbMissingList) ∧
      updateUserProfile dbMissingList 0 bodyOnlyName (some ("Xy1!pass")) =
        ((400, "Las contraseñas no coinciden"), dbMissingList) ∧
      ∃ u3 : UserDoc,
        updateUserProfile dbMissingList 0 bodyNameAndPw (some ("Passw0rd!")) =
            ((200, "Perfil exitosamente actualizado"),
              { dbMissingList with
                users := replaceById dbMissingList.users 0 u3 }) ∧
          u3.firstName =
            (bodyNameAndPw.firstName.map String.trimJs).getD demoUser.firstName ∧
          u3.lastName =
            (bodyNameAndPw.lastName.map String.trimJs).getD demoUser.lastName ∧
          u3.age = bodyNameAndPw.age.getD demoUser.age ∧
          u3.email = bodyNameAndPw.email.getD demoUser.email ∧
          u3.password = bcryptHash ("Passw0rd!") :=
  ⟨C9_amended_profile_update.1 dbMissingList 0 bodyOnlyName,
    C9_amended_profile_update.2.1 dbMissingList 0 bodyOnlyName ("Xy1!pass")
      (by decide) (by decide),
    C9_amended_profile_update.2.2.1 dbMissingList 0 bodyNameAndPw
      ("Passw0rd!") demoUser (by decide) rfl (by decide) (by decide)
      (by decide) (by decide)⟩

/-- C10: when getKanbanTasks answers for an existing user and every
stored task of that user carries a status of the schema enum (the Task
schema constrains status to ongoing/unassigned/done with default
unassigned), the three returned arrays form a partition of the tasks of
the user: their concatenation is a permutation of those tasks and each
task belongs to exactly the array matching its status. -/
theorem C10_kanban_partition :
    ∀ (s : DB) (uid : Nat)
      (r : List TaskDoc × List TaskDoc × List TaskDoc),
      getKanbanTasks s uid = Except.ok r →
      (∀ t ∈ userTasks s uid, t.status ∈ statusEnum) →
      (r.1 ++ (r.2.1 ++ r.2.2)).Perm (userTasks s uid) ∧
        ∀ t ∈ userTasks s uid,
          (t ∈ r.1 ↔ t.status = "ongoing") ∧
            (t ∈ r.2.1 ↔ t.status = "unassigned") ∧
            (t ∈ r.2.2 ↔ t.status = "done") := by
  intro s uid r hr hval
  unfold getKanbanTasks at hr
  split at hr
  · cases hr
  · rw [Except.ok.injEq] at hr
    subst hr
    refine ⟨triFilter_perm (userTasks s uid) hval, ?_⟩
    intro t ht
    refine ⟨?_, ?_, ?_⟩
    all_goals
      simp [List.mem_filter, ht]

/-- Kanban demo database: user 0 with one task of each status. -/
def dbKanban : DB :=
  { users := [(0, demoUser)], lists := [(1, { title := "Tasks", user := 0 })],
    tasks :=
      [(2, { title := "a", status := "ongoing", list := 1, user := 0 }),
       (3, { title := "b", status := "done", list := 1, user := 0 }),
       (4, { title := "c", status := "unassigned", list := 1, user := 0 })],
    nextId := 5 }

/-- Result of getKanbanTasks on the demo database. -/
def kanbanDemo : List TaskDoc × List TaskDoc × List TaskDoc :=
  ([{ title := "a", status := "ongoing", list := 1, user := 0 }],
    [{ title := "c", status := "unassigned", list := 1, user := 0 }],
    [{ title := "b", status := "done", list := 1, user := 0 }])

/-- Witness instantiating C10 on the demo database. -/
theorem C10_kanban_partition_witness :
    (kanbanDemo.1 ++ (kanbanDemo.2.1 ++ kanbanDemo.2.2)).Perm
        (userTasks dbKanban 0) ∧
      ∀ t ∈ userTasks dbKanban 0,
        (t ∈ kanbanDemo.1 ↔ t.status = "ongoing") ∧
          (t ∈ kanbanDemo.2.1 ↔ t.status = "unassigned") ∧
          (t ∈ kanbanDemo.2.2 ↔ t.status = "done") :=
  C10_kanban_partition dbKanban 0 kanbanDemo rfl (by decide)
